import Mathlib

/-!
Verification development for the `Network` class of `src/network.py`
(Beatheavenn repository).

The Python source is shallowly embedded:

* a piano roll (`midi_in.beat_roll`, a numpy-convertible nested list) is a
  `List (List Nat)` of time slices, each slice a row of per-pitch cells;
* Python float arithmetic on beat counts is modelled by exact rationals `ℚ`
  (the quantities involved are ratios of machine integers);
* `numpy` slice reads `roll[a:b]` become `pySlice`, and the in-place
  assignments `self.X[i] = ...` / `self.y[i-1] = ...` inside the
  construction loop become `List.set` updates threaded through a fold
  (`runLoop`) over `List.range n`, exactly mirroring
  `for i in range(0, self.N)`;
* fallible construction (Python exceptions: `ZeroDivisionError` from
  `total_ticks / tpb`, numpy's error on a negative dimension in
  `np.zeros`) is an `Except BuildErr` result;
* the Keras layer objects are embedded structurally: each layer is recorded
  with the exact configuration the source passes to it (units,
  `return_sequences`, `return_state`, activation, dropout probability),
  since their numeric semantics live in the external library;
* `compile`/`fit` in `Network.train` are recorded as a `TrainCall` value
  carrying the exact arguments of the source call; the fitted weights
  produced by the external optimizer are supplied as an explicit `fitted`
  oracle argument;
* `Network.save` / `Network.load_training` delegate to Keras persistence;
  that external collaborator is modelled per the spec's interface contract
  (opaque serialize/deserialize of the trained parameters) as a keyed store.
-/

/-- A row of per-pitch cells of the piano roll (one time slice). -/
abbrev Row := List Nat

/-- A matrix: a list of time slices, each a row of per-pitch cells. -/
abbrev Mat := List Row

/-- Python/numpy slice `roll[a:b]` for `0 ≤ a ≤ b` (clamping at the end,
exactly as `List.drop`/`List.take` clamp). -/
def pySlice (roll : Mat) (a b : Nat) : Mat :=
  (roll.drop a).take (b - a)

/-- A row of zeros, the fill value of `np.zeros` along the pitch axis. -/
def zeroRow (r : Nat) : Row := List.replicate r 0

/-- A `ts × r` zero matrix: one entry of `np.zeros(shape=(N, ts, r))`. -/
def zeroMat (ts r : Nat) : Mat := List.replicate ts (zeroRow r)

/-- The `midi_in` collaborator object: the fields of it that
`Network.__init__` reads (`beat_roll`, `res`, `tpb`, `total_ticks`,
`note_range`). -/
structure MidiIn where
  beat_roll : Mat
  res : Nat
  tpb : Nat
  total_ticks : Nat
  note_range : Nat
deriving DecidableEq, Repr

/-- Line 27 of the source: `total_beats = midi_in.total_ticks / midi_in.tpb`
(Python float division, modelled exactly on `ℚ`). -/
def MidiIn.total_beats (m : MidiIn) : ℚ :=
  (m.total_ticks : ℚ) / (m.tpb : ℚ)

/-- Line 29 of the source:
`self.N = floor((total_beats / beats_in_window)) - 1`. -/
def netN (m : MidiIn) (biw : Nat) : Int :=
  ⌊m.total_beats / (biw : ℚ)⌋ - 1

/-- Activation functions named by the source's layer-construction strings. -/
inductive Activation where
  | softmax
  | sigmoid
deriving DecidableEq, Repr

/-- Configuration of a Keras `LSTM` layer as constructed by the source. -/
structure LSTMCfg where
  units : Nat
  return_sequences : Bool
  return_state : Bool
deriving DecidableEq, Repr

/-- Configuration of the Keras `Dense` layer as constructed by the source. -/
structure DenseCfg where
  units : Nat
  activation : Activation
deriving DecidableEq, Repr

/-- The trained parameters of the joined model: an opaque weight vector
owned by the external library; its exact contents never matter, only its
identity across train/save/load. -/
abbrev TrainedParams := List ℚ

/-- The body of the window loop, lines 34-39 of the source: at iteration
`i`, with `beat_start = i * time_step`,

* `self.X[i] = midi_in.beat_roll[beat_start : beat_start + time_step]`
* `if i > 0: self.y[i - 1] =
    midi_in.beat_roll[beat_start + time_step : beat_start + time_step * 2]`

acting on the pair `(X, y)` of tensors. -/
def loopStep (roll : Mat) (ts : Nat) (s : List Mat × List Mat) (i : Nat) :
    List Mat × List Mat :=
  (s.1.set i (pySlice roll (i * ts) (i * ts + ts)),
   if 0 < i then
     s.2.set (i - 1) (pySlice roll (i * ts + ts) (i * ts + ts * 2))
   else
     s.2)

/-- The window loop `for i in range(0, self.N)` of the source, folding
`loopStep` over `0, 1, ..., n-1` starting from the `np.zeros` tensors. -/
def runLoop (roll : Mat) (ts n : Nat) (s : List Mat × List Mat) :
    List Mat × List Mat :=
  (List.range n).foldl (loopStep roll ts) s

/-- The `(X, y)` pair produced by lines 31-39 of the source: both tensors
start as `np.zeros(shape=(N, time_step, note_range))` and are filled by the
window loop. -/
def buildXY (m : MidiIn) (biw : Nat) : List Mat × List Mat :=
  runLoop m.beat_roll (biw * m.res) (netN m biw).toNat
    (List.replicate (netN m biw).toNat (zeroMat (biw * m.res) m.note_range),
     List.replicate (netN m biw).toNat (zeroMat (biw * m.res) m.note_range))

/-- Exceptions that `Network.__init__` can raise: Python's
`ZeroDivisionError` (from `total_ticks / tpb` or `total_beats /
beats_in_window` with a zero divisor) and numpy's `ValueError` on a
negative dimension in `np.zeros(shape=(N, ...))`. -/
inductive BuildErr where
  | zeroDivision
  | negativeDimension
deriving DecidableEq, Repr

/-- The state of a constructed `Network` object: every attribute
`Network.__init__` stores on `self`, with the Keras layers recorded
structurally by their construction arguments. -/
structure Network where
  encoder_in_data : Mat
  midi_in : MidiIn
  time_step : Nat
  beats_in_window : Nat
  N : Int
  X : List Mat
  y : List Mat
  hidden : Nat
  enc_in_shape : Nat × Nat
  enc_lstm_1 : LSTMCfg
  dropout_rate : ℚ
  enc_lstm_2 : LSTMCfg
  dec_in_shape : Nat × Nat
  dec_lstm_1 : LSTMCfg
  dec_lstm_2 : LSTMCfg
  dec_dense : DenseCfg
  training_model : TrainedParams
deriving DecidableEq, Repr

/-- The object state `Network.__init__` produces on the non-raising path:
every attribute it stores on `self`, lines 20-67 of the source.  The
initial weights of the Keras graph are chosen by the external library;
since no claim depends on their value the freshly built `training_model`
is recorded as the empty parameter vector. -/
def builtNetwork (m : MidiIn) (biw : Nat) : Network :=
  {
    encoder_in_data := m.beat_roll
    midi_in := m
    time_step := biw * m.res
    beats_in_window := biw
    N := netN m biw
    X := (buildXY m biw).1
    y := (buildXY m biw).2
    hidden := 128
    enc_in_shape := (biw * m.res, m.note_range)
    enc_lstm_1 := { units := 128, return_sequences := true, return_state := false }
    dropout_rate := 3 / 10
    enc_lstm_2 := { units := 128, return_sequences := false, return_state := true }
    dec_in_shape := (biw * m.res, m.note_range)
    dec_lstm_1 := { units := 128, return_sequences := true, return_state := false }
    dec_lstm_2 := { units := 128, return_sequences := true, return_state := true }
    dec_dense := { units := m.note_range, activation := Activation.softmax }
    training_model := [] }

/-- Embedding of `Network.__init__(self, midi_in, beats_in_window=8)`:
either one of the two raising computations fires (`ZeroDivisionError` from
the beat-count divisions, numpy's error on the negative first dimension of
`np.zeros` when `N < 0`), or the fully initialised object is returned. -/
def Network.init (m : MidiIn) (biw : Nat) : Except BuildErr Network :=
  if m.tpb = 0 ∨ biw = 0 then .error .zeroDivision
  else if netN m biw < 0 then .error .negativeDimension
  else .ok (builtNetwork m biw)

/-- The Python default of the `beats_in_window` keyword argument. -/
def defaultBeatsInWindow : Nat := 8

/-- The Python default of the `epochs` keyword argument of `train`. -/
def defaultEpochs : Nat := 50

/-- Loss functions named by the strings the source passes to `compile`. -/
inductive Loss where
  | binary_crossentropy
  | categorical_crossentropy
deriving DecidableEq, Repr

/-- Optimizers named by the strings the source passes to `compile`. -/
inductive Optimizer where
  | rmsprop
deriving DecidableEq, Repr

/-- A record of the `compile` + `fit` call made by `Network.train`:
`compile(optimizer='rmsprop', loss='binary_crossentropy')` and
`fit([self.X, self.X], self.y, batch_size=1, epochs=epochs,
validation_split=0.2)`.  The field `validation_used_for_gradients` is
modelled from the spec: the external trainer carves the validation
fraction from the end of the example set for monitoring only and performs
no gradient update on it. -/
structure TrainCall where
  optimizer : Optimizer
  loss : Loss
  inputs : List (List Mat)
  target : List Mat
  batch_size : Nat
  epochs : Nat
  validation_split : ℚ
  validation_used_for_gradients : Bool
deriving DecidableEq, Repr

/-- Embedding of `Network.train(self, epochs=50)` (lines 70-74).  The
weight vector produced by the external optimizer is passed in as the
oracle argument `fitted`; the method replaces the trained parameters with
it and is recorded together with the exact `compile`/`fit` arguments of
the source. -/
def Network.train (net : Network) (fitted : TrainedParams) (epochs : Nat) :
    Network × TrainCall :=
  ({ net with training_model := fitted },
   { optimizer := .rmsprop
     loss := .binary_crossentropy
     inputs := [net.X, net.X]
     target := net.y
     batch_size := 1
     epochs := epochs
     validation_split := 1 / 5
     validation_used_for_gradients := false })

/-- A call of `train` with the `epochs` argument left at its default. -/
def Network.trainDefault (net : Network) (fitted : TrainedParams) :
    Network × TrainCall :=
  Network.train net fitted defaultEpochs

/-- Modelled from the spec: the persistent store behind Keras
`Model.save` / `load_model` (the ModelStore collaborator, spec §4.5/§6),
an association of filenames to serialized parameter sets; serialization is
opaque and round-trips the trained parameters exactly. -/
abbrev ModelStore := List (String × TrainedParams)

/-- Embedding of `Network.save(self, filename)` (lines 113-114): writes the
trained unit's parameters to `filename` in the store. -/
def Network.save (net : Network) (filename : String) (store : ModelStore) :
    ModelStore :=
  (filename, net.training_model) :: store

/-- Embedding of `Network.load_training(self, filename)` (lines 117-118):
reads `filename` from the store and replaces `self.training_model`;
`none` models the external `PersistenceError` when the source is absent. -/
def Network.load_training (net : Network) (filename : String)
    (store : ModelStore) : Option Network :=
  (store.lookup filename).map (fun p => { net with training_model := p })

/-- A concrete 4-beat performance: resolution 1 slice/beat, 1 tick/beat,
4 total ticks, a single tracked pitch, piano roll rows
`[0], [1], [0], [1]`. -/
def exMidi : MidiIn :=
  { beat_roll := [[0], [1], [0], [1]]
    res := 1
    tpb := 1
    total_ticks := 4
    note_range := 1 }

/-- A concrete 1-beat performance, too short for even one window pair. -/
def exShort : MidiIn :=
  { beat_roll := [[0]]
    res := 1
    tpb := 1
    total_ticks := 1
    note_range := 1 }

/-- The filename used by the concrete save/load scenario. -/
def exFile : String := "m"

deriving instance DecidableEq for Except

section LoopLemmas

lemma runLoop_zero (roll : Mat) (ts : Nat) (s : List Mat × List Mat) :
    runLoop roll ts 0 s = s := rfl

lemma runLoop_succ (roll : Mat) (ts n : Nat) (s : List Mat × List Mat) :
    runLoop roll ts (n + 1) s = loopStep roll ts (runLoop roll ts n s) n := by
  unfold runLoop
  rw [List.range_succ, List.foldl_append]
  rfl

lemma runLoop_len_fst (roll : Mat) (ts : Nat) :
    ∀ (n : Nat) (s : List Mat × List Mat),
      (runLoop roll ts n s).1.length = s.1.length := by
  intro n
  induction n with
  | zero => intro s; rfl
  | succ k ih =>
    intro s
    rw [runLoop_succ]
    simp only [loopStep, List.length_set]
    exact ih s

lemma runLoop_len_snd (roll : Mat) (ts : Nat) :
    ∀ (n : Nat) (s : List Mat × List Mat),
      (runLoop roll ts n s).2.length = s.2.length := by
  intro n
  induction n with
  | zero => intro s; rfl
  | succ k ih =>
    intro s
    rw [runLoop_succ]
    simp only [loopStep]
    split
    · rw [List.length_set]; exact ih s
    · exact ih s

lemma runLoop_fst_get (roll : Mat) (ts : Nat) :
    ∀ (n : Nat) (s : List Mat × List Mat) (j : Nat), j < n → j < s.1.length →
      (runLoop roll ts n s).1[j]? =
        some (pySlice roll (j * ts) (j * ts + ts)) := by
  intro n
  induction n with
  | zero => intro s j hj _; exact absurd hj (Nat.not_lt_zero j)
  | succ k ih =>
    intro s j hj hlen
    rw [runLoop_succ]
    simp only [loopStep]
    rcases Nat.lt_or_ge j k with hk | hk
    · rw [List.getElem?_set_ne (by omega)]
      exact ih s j hk hlen
    · have hjk : j = k := by omega
      subst hjk
      exact List.getElem?_set_eq_of_lt _ (by rw [runLoop_len_fst]; exact hlen)

lemma runLoop_snd_get (roll : Mat) (ts : Nat) :
    ∀ (n : Nat) (s : List Mat × List Mat) (j : Nat), j + 1 < n → j < s.2.length →
      (runLoop roll ts n s).2[j]? =
        some (pySlice roll ((j + 1) * ts + ts) ((j + 1) * ts + ts * 2)) := by
  intro n
  induction n with
  | zero => intro s j hj _; exact absurd hj (Nat.not_lt_zero _)
  | succ k ih =>
    intro s j hj hlen
    rw [runLoop_succ]
    simp only [loopStep]
    rcases Nat.lt_or_ge (j + 1) k with hk | hk
    · rw [if_pos (by omega), List.getElem?_set_ne (by omega)]
      exact ih s j hk hlen
    · have hjk : j + 1 = k := by omega
      subst hjk
      rw [if_pos (by omega)]
      have hidx : j + 1 - 1 = j := by omega
      rw [hidx]
      exact List.getElem?_set_eq_of_lt _ (by rw [runLoop_len_snd]; exact hlen)

lemma runLoop_snd_untouched (roll : Mat) (ts : Nat) :
    ∀ (n : Nat) (s : List Mat × List Mat) (j : Nat), n ≤ j + 1 →
      (runLoop roll ts n s).2[j]? = s.2[j]? := by
  intro n
  induction n with
  | zero => intro s j _; rfl
  | succ k ih =>
    intro s j h
    rw [runLoop_succ]
    simp only [loopStep]
    by_cases hk : 0 < k
    · rw [if_pos hk, List.getElem?_set_ne (by omega)]
      exact ih s j (by omega)
    · rw [if_neg hk]
      exact ih s j (by omega)

end LoopLemmas

section SliceLemmas

lemma pySlice_len (roll : Mat) (a b : Nat) :
    (pySlice roll a b).length = min (b - a) (roll.length - a) := by
  simp [pySlice]

lemma pySlice_subset (roll : Mat) (a b : Nat) : pySlice roll a b ⊆ roll :=
  fun _x hx => List.drop_subset a roll (List.take_subset _ _ hx)

lemma pySlice_shape (roll : Mat) (r a ts : Nat)
    (hrows : ∀ row ∈ roll, row.length = r)
    (hfit : a + ts ≤ roll.length) :
    (pySlice roll a (a + ts)).length = ts ∧
      ∀ row ∈ pySlice roll a (a + ts), row.length = r := by
  constructor
  · rw [pySlice_len, Nat.add_sub_cancel_left]
    exact Nat.min_eq_left (Nat.le_sub_of_add_le (by omega))
  · intro row hrow
    exact hrows row (pySlice_subset _ _ _ hrow)

lemma zeroMat_shape (ts r : Nat) :
    (zeroMat ts r).length = ts ∧ ∀ row ∈ zeroMat ts r, row.length = r := by
  refine ⟨List.length_replicate _ _, ?_⟩
  intro row hrow
  rw [List.eq_of_mem_replicate hrow]
  exact List.length_replicate _ _

end SliceLemmas

section BuildLemmas

lemma buildXY_fst_length (m : MidiIn) (biw : Nat) :
    (buildXY m biw).1.length = (netN m biw).toNat := by
  unfold buildXY
  rw [runLoop_len_fst]
  exact List.length_replicate _ _

lemma buildXY_snd_length (m : MidiIn) (biw : Nat) :
    (buildXY m biw).2.length = (netN m biw).toNat := by
  unfold buildXY
  rw [runLoop_len_snd]
  exact List.length_replicate _ _

lemma buildXY_fst_get (m : MidiIn) (biw : Nat) (j : Nat)
    (hj : j < (netN m biw).toNat) :
    (buildXY m biw).1[j]? =
      some (pySlice m.beat_roll (j * (biw * m.res))
        (j * (biw * m.res) + biw * m.res)) := by
  unfold buildXY
  exact runLoop_fst_get _ _ _ _ j hj (by rw [List.length_replicate]; exact hj)

lemma buildXY_snd_get (m : MidiIn) (biw : Nat) (j : Nat)
    (hj : j + 1 < (netN m biw).toNat) :
    (buildXY m biw).2[j]? =
      some (pySlice m.beat_roll ((j + 1) * (biw * m.res) + biw * m.res)
        ((j + 1) * (biw * m.res) + (biw * m.res) * 2)) := by
  unfold buildXY
  exact runLoop_snd_get _ _ _ _ j hj
    (by rw [List.length_replicate]; omega)

lemma buildXY_snd_last (m : MidiIn) (biw : Nat) (j : Nat)
    (hj1 : (netN m biw).toNat ≤ j + 1) (hj2 : j < (netN m biw).toNat) :
    (buildXY m biw).2[j]? = some (zeroMat (biw * m.res) m.note_range) := by
  unfold buildXY
  rw [runLoop_snd_untouched _ _ _ _ _ hj1]
  simp [List.getElem?_replicate, hj2]

lemma init_ok_intro (m : MidiIn) (biw : Nat)
    (h1 : ¬(m.tpb = 0 ∨ biw = 0)) (h2 : 0 ≤ netN m biw) :
    Network.init m biw = .ok (builtNetwork m biw) := by
  unfold Network.init
  rw [if_neg h1, if_neg (not_lt.mpr h2)]

lemma init_ok_elim (m : MidiIn) (biw : Nat) (net : Network)
    (hok : Network.init m biw = .ok net) :
    ¬(m.tpb = 0 ∨ biw = 0) ∧ 0 ≤ netN m biw ∧ net = builtNetwork m biw := by
  unfold Network.init at hok
  by_cases h1 : m.tpb = 0 ∨ biw = 0
  · rw [if_pos h1] at hok
    exact absurd hok (by simp)
  · rw [if_neg h1] at hok
    by_cases h2 : netN m biw < 0
    · rw [if_pos h2] at hok
      exact absurd hok (by simp)
    · rw [if_neg h2] at hok
      simp only [Except.ok.injEq] at hok
      exact ⟨h1, not_lt.mp h2, hok.symm⟩

lemma slices_fit (m : MidiIn) (biw : Nat) (hb : biw ≠ 0)
    (hT : (m.beat_roll.length : ℚ) = m.total_beats * (m.res : ℚ))
    (hN0 : 0 ≤ netN m biw) :
    ((netN m biw).toNat + 1) * (biw * m.res) ≤ m.beat_roll.length := by
  have hbq : (0 : ℚ) < (biw : ℚ) := by
    exact_mod_cast Nat.pos_of_ne_zero hb
  have hfl : ((⌊m.total_beats / (biw : ℚ)⌋ : ℤ) : ℚ) ≤ m.total_beats / (biw : ℚ) :=
    Int.floor_le _
  have hcast : (((netN m biw).toNat : ℤ) : ℚ) = ((netN m biw : ℤ) : ℚ) := by
    exact_mod_cast congrArg (fun z : ℤ => (z : ℚ)) (Int.toNat_of_nonneg hN0)
  have key : (((netN m biw).toNat + 1 : Nat) : ℚ) * ((biw * m.res : Nat) : ℚ) ≤
      (m.beat_roll.length : ℚ) := by
    push_cast
    push_cast at hcast
    rw [hcast]
    unfold netN
    push_cast
    calc ((⌊m.total_beats / (biw : ℚ)⌋ : ℚ) - 1 + 1) * ((biw : ℚ) * (m.res : ℚ))
        = (⌊m.total_beats / (biw : ℚ)⌋ : ℚ) * ((biw : ℚ) * (m.res : ℚ)) := by ring
      _ ≤ (m.total_beats / (biw : ℚ)) * ((biw : ℚ) * (m.res : ℚ)) := by
          apply mul_le_mul_of_nonneg_right hfl
          positivity
      _ = m.total_beats * (m.res : ℚ) := by
          field_simp
          ring
      _ = (m.beat_roll.length : ℚ) := hT.symm
  exact_mod_cast key

end BuildLemmas

section ConcreteLemmas

/-- The fully evaluated result of constructing `Network` on `exMidi` with
`beats_in_window = 1`: `time_step = 1`, `N = 3`, and the window tensors
produced by the loop (note `y[0]` holds the roll slice `[2:3]`, the window
two steps after `X[0]`, and `y[2]` keeps the zero fill). -/
def exNetBuilt : Network :=
  { encoder_in_data := [[0], [1], [0], [1]]
    midi_in := exMidi
    time_step := 1
    beats_in_window := 1
    N := 3
    X := [[[0]], [[1]], [[0]]]
    y := [[[0]], [[1]], [[0]]]
    hidden := 128
    enc_in_shape := (1, 1)
    enc_lstm_1 := { units := 128, return_sequences := true, return_state := false }
    dropout_rate := 3 / 10
    enc_lstm_2 := { units := 128, return_sequences := false, return_state := true }
    dec_in_shape := (1, 1)
    dec_lstm_1 := { units := 128, return_sequences := true, return_state := false }
    dec_lstm_2 := { units := 128, return_sequences := true, return_state := true }
    dec_dense := { units := 1, activation := Activation.softmax }
    training_model := [] }

lemma netN_exMidi : netN exMidi 1 = 3 := by
  norm_num [netN, MidiIn.total_beats, exMidi]

lemma netN_exMidi2 : netN exMidi 2 = 1 := by
  norm_num [netN, MidiIn.total_beats, exMidi]

lemma netN_exShort : netN exShort 1 = 0 := by
  norm_num [netN, MidiIn.total_beats, exShort]

lemma buildXY_exMidi :
    buildXY exMidi 1 = ([[[0]], [[1]], [[0]]], [[[0]], [[1]], [[0]]]) := by
  unfold buildXY
  rw [netN_exMidi]
  decide

lemma init_exMidi : Network.init exMidi 1 = .ok exNetBuilt := by
  rw [init_ok_intro exMidi 1 (by decide) (by rw [netN_exMidi]; decide)]
  unfold builtNetwork
  rw [netN_exMidi, buildXY_exMidi]
  rfl

end ConcreteLemmas

section ProjectionLemmas

lemma builtNetwork_X (m : MidiIn) (biw : Nat) :
    (builtNetwork m biw).X = (buildXY m biw).1 := rfl

lemma builtNetwork_y (m : MidiIn) (biw : Nat) :
    (builtNetwork m biw).y = (buildXY m biw).2 := rfl

lemma builtNetwork_N (m : MidiIn) (biw : Nat) :
    (builtNetwork m biw).N = netN m biw := rfl

lemma builtNetwork_time_step (m : MidiIn) (biw : Nat) :
    (builtNetwork m biw).time_step = biw * m.res := rfl

lemma lookup_self (p : TrainedParams) (fn : String) (store : ModelStore) :
    List.lookup fn ((fn, p) :: store) = some p := by
  simp [List.lookup]

end ProjectionLemmas

/-- Claim C1: the claim states that for i in [0, N-1) the target window satisfies
`y[i] = PianoRoll[(i+1)·time_step : (i+2)·time_step] = X[i+1]`.  The code
violates it: on the 4-beat performance `exMidi` with `beats_in_window = 1`
(so `time_step = 1`, `N = 3`) the loop stores `y[0] = PianoRoll[2:3] =
[[0]]` (which is `X[2]`'s window, two windows after `X[0]`), while the
claimed value is `PianoRoll[1:2] = X[1] = [[1]]`. -/
theorem target_window_misaligned_on_exMidi :
    (Network.init exMidi 1).map (fun net => net.y[0]?) = .ok (some [[0]])
    ∧ (Network.init exMidi 1).map (fun net => net.X[1]?) = .ok (some [[1]])
    ∧ (Network.init exMidi 1).map (fun net => net.X[2]?) = .ok (some [[0]])
    ∧ pySlice exMidi.beat_roll (1 * 1) (2 * 1) = [[1]]
    ∧ (some [[1]] : Option Mat) ≠ some [[0]] :=
  ⟨by rw [init_exMidi]; rfl,
   by rw [init_exMidi]; rfl,
   by rw [init_exMidi]; rfl,
   rfl,
   by decide⟩

/-- Claim C2: for every performance with `total_beats ≥ 2 × beats_in_window`
(and nonzero divisors), construction succeeds and computes
`N = ⌊total_beats / beats_in_window⌋ - 1` with
`total_beats = total_ticks / ticks_per_beat`, and `N ≥ 1`. -/
theorem window_count_formula (m : MidiIn) (biw : Nat)
    (hb : 0 < biw) (ht : 0 < m.tpb)
    (h2 : 2 * (biw : ℚ) ≤ m.total_beats) :
    (Network.init m biw).map Network.N = .ok (⌊m.total_beats / (biw : ℚ)⌋ - 1)
    ∧ m.total_beats = (m.total_ticks : ℚ) / (m.tpb : ℚ)
    ∧ 1 ≤ ⌊m.total_beats / (biw : ℚ)⌋ - 1 := by
  have hbq : (0 : ℚ) < (biw : ℚ) := by exact_mod_cast hb
  have h82 : (2 : ℤ) ≤ ⌊m.total_beats / (biw : ℚ)⌋ := by
    apply Int.le_floor.mpr
    rw [le_div_iff₀ hbq]
    push_cast
    linarith
  have h1 : ¬(m.tpb = 0 ∨ biw = 0) := by
    rintro (h | h) <;> omega
  have hN0 : 0 ≤ netN m biw := by
    unfold netN
    omega
  rw [init_ok_intro m biw h1 hN0]
  exact ⟨rfl, rfl, by omega⟩

/-- Claim C2 witness: the general theorem applied to the concrete 4-beat
performance `exMidi` with `beats_in_window = 1`. -/
theorem window_count_formula_witness :
    (Network.init exMidi 1).map Network.N =
      .ok (⌊exMidi.total_beats / ((1 : Nat) : ℚ)⌋ - 1)
    ∧ exMidi.total_beats = (exMidi.total_ticks : ℚ) / (exMidi.tpb : ℚ)
    ∧ 1 ≤ ⌊exMidi.total_beats / ((1 : Nat) : ℚ)⌋ - 1 :=
  window_count_formula exMidi 1 (by norm_num) (by norm_num [exMidi])
    (by norm_num [MidiIn.total_beats, exMidi])

/-- Claim C3 counterexample: the claim states that a performance with `N ≤ 0`
makes construction fail with an `InsufficientDataError`.  On the 1-beat
performance `exShort` (one window-length, so `N = 0`), construction does
not fail at all: it succeeds and returns zero-length window tensors. -/
theorem short_performance_constructs_without_error :
    Network.init exShort 1 = .ok (builtNetwork exShort 1)
    ∧ (builtNetwork exShort 1).N = 0
    ∧ (builtNetwork exShort 1).X = []
    ∧ (builtNetwork exShort 1).y = [] := by
  have h0 : 0 ≤ netN exShort 1 := by
    rw [netN_exShort]
  refine ⟨init_ok_intro exShort 1 (by decide) h0, netN_exShort, ?_, ?_⟩
  · have hlen := buildXY_fst_length exShort 1
    rw [netN_exShort] at hlen
    exact List.length_eq_zero.mp hlen
  · have hlen := buildXY_snd_length exShort 1
    rw [netN_exShort] at hlen
    exact List.length_eq_zero.mp hlen

/-- Claim C3 (amended): for `N ≤ 0` no `InsufficientDataError` exists in the
code.  When `N = 0` construction succeeds with zero-length `X` and `y`;
only when `N < 0` does construction fail, and then with the numeric
library's negative-dimension error raised by `np.zeros`. -/
theorem short_performance_behavior (m : MidiIn) (biw : Nat)
    (h1 : ¬(m.tpb = 0 ∨ biw = 0)) :
    (netN m biw = 0 →
      (Network.init m biw).map (fun net => (net.N, net.X.length, net.y.length)) =
        .ok (0, 0, 0))
    ∧ (netN m biw < 0 →
        Network.init m biw = .error BuildErr.negativeDimension) := by
  constructor
  · intro hz
    rw [init_ok_intro m biw h1 (le_of_eq hz.symm)]
    have hN' : (builtNetwork m biw).N = 0 := hz
    have hx : (builtNetwork m biw).X.length = 0 := by
      rw [builtNetwork_X, buildXY_fst_length, hz]
      rfl
    have hy : (builtNetwork m biw).y.length = 0 := by
      rw [builtNetwork_y, buildXY_snd_length, hz]
      rfl
    simp [Except.map, hN', hx, hy]
  · intro hlt
    unfold Network.init
    rw [if_neg h1, if_pos hlt]

/-- Claim C3 witness: the amended behaviour at the concrete 1-beat performance
`exShort`, whose `N` is `0`. -/
theorem short_performance_behavior_witness :
    (netN exShort 1 = 0 →
      (Network.init exShort 1).map (fun net => (net.N, net.X.length, net.y.length)) =
        .ok (0, 0, 0))
    ∧ (netN exShort 1 < 0 →
        Network.init exShort 1 = .error BuildErr.negativeDimension) :=
  short_performance_behavior exShort 1 (by decide)

/-- Claim C4: whenever construction succeeds with `N ≥ 1`, the last target row
`y[N-1]` is never assigned by the window loop and still holds the
`np.zeros` fill value, the all-zero `time_step × note_range` matrix. -/
theorem last_target_row_all_zero (m : MidiIn) (biw : Nat) (net : Network)
    (hok : Network.init m biw = .ok net) (hN : 1 ≤ net.N) :
    net.y[net.N.toNat - 1]? = some (zeroMat net.time_step m.note_range) := by
  obtain ⟨-, hN0, rfl⟩ := init_ok_elim m biw net hok
  have hN' : 1 ≤ netN m biw := hN
  have h1 : 1 ≤ (netN m biw).toNat := by omega
  show (buildXY m biw).2[(netN m biw).toNat - 1]? =
    some (zeroMat (biw * m.res) m.note_range)
  exact buildXY_snd_last m biw _ (by omega) (by omega)

/-- Claim C4 witness: on `exMidi` with `beats_in_window = 1` the constructed
`y[2]` is the zero 1×1 matrix. -/
theorem last_target_row_all_zero_witness :
    exNetBuilt.y[exNetBuilt.N.toNat - 1]? =
      some (zeroMat exNetBuilt.time_step exMidi.note_range) :=
  last_target_row_all_zero exMidi 1 exNetBuilt init_exMidi (by decide)

/-- Claim C5: the claim states the emission layer applies an independent
logistic (sigmoid) nonlinearity per pitch.  The code instead builds
`Dense(note_range, activation='softmax')`: a categorical softmax over the
pitch axis, not a sigmoid — softmax outputs sum to 1 across pitches, so
two pitches of a chord can never be jointly near 1, contradicting the
multi-label contract and the source's own binary-cross-entropy comment. -/
theorem emission_activation_is_softmax (m : MidiIn) (biw : Nat) (net : Network)
    (hok : Network.init m biw = .ok net) :
    net.dec_dense = { units := m.note_range, activation := Activation.softmax }
    ∧ net.dec_dense.activation ≠ Activation.sigmoid := by
  obtain ⟨-, -, rfl⟩ := init_ok_elim m biw net hok
  exact ⟨rfl, fun h => Activation.noConfusion h⟩

/-- Claim C5 witness: the emission layer of the network built on `exMidi`. -/
theorem emission_activation_is_softmax_witness :
    exNetBuilt.dec_dense =
      { units := exMidi.note_range, activation := Activation.softmax }
    ∧ exNetBuilt.dec_dense.activation ≠ Activation.sigmoid :=
  emission_activation_is_softmax exMidi 1 exNetBuilt init_exMidi


/-- Claim C6: `train` with the default epoch count joins encoder and decoder into
one trainable unit whose `fit` call receives `[X, X]` — the same input
window tensor as both encoder input and decoder teacher-forcing input —
target `y`, binary cross-entropy loss (not categorical cross-entropy),
the `rmsprop` optimizer, 50 epochs, batch size 1, and a validation split
of 0.2 that the external trainer holds out from gradient updates. -/
theorem train_default_call_contract (net : Network) (fitted : TrainedParams) :
    (Network.trainDefault net fitted).2.inputs = [net.X, net.X]
    ∧ (Network.trainDefault net fitted).2.target = net.y
    ∧ (Network.trainDefault net fitted).2.loss = Loss.binary_crossentropy
    ∧ (Network.trainDefault net fitted).2.loss ≠ Loss.categorical_crossentropy
    ∧ (Network.trainDefault net fitted).2.optimizer = Optimizer.rmsprop
    ∧ (Network.trainDefault net fitted).2.epochs = 50
    ∧ (Network.trainDefault net fitted).2.batch_size = 1
    ∧ (Network.trainDefault net fitted).2.validation_split = 1 / 5
    ∧ (Network.trainDefault net fitted).2.validation_used_for_gradients = false :=
  ⟨rfl, rfl, rfl, fun h => Loss.noConfusion h, rfl, rfl, rfl, rfl, rfl⟩

/-- Claim C7: whenever construction succeeds on a consistent performance
(`N ≥ 1`, rows as wide as the note range, roll length matching
`total_beats × resolution`), the tensors `X` and `y` both have shape
`(N, time_step, note_range)` with `time_step = beats_in_window ×
resolution`, and `X[i]` is exactly the piano-roll slice
`[i·time_step : (i+1)·time_step]`. -/
theorem window_tensor_shapes (m : MidiIn) (biw : Nat) (net : Network)
    (hok : Network.init m biw = .ok net)
    (hrows : ∀ row ∈ m.beat_roll, row.length = m.note_range)
    (hT : (m.beat_roll.length : ℚ) = m.total_beats * (m.res : ℚ))
    (hN : 1 ≤ net.N) :
    net.time_step = biw * m.res
    ∧ net.X.length = net.N.toNat
    ∧ net.y.length = net.N.toNat
    ∧ (∀ j : Nat, j < net.N.toNat →
        net.X[j]? = some (pySlice m.beat_roll (j * net.time_step)
          (j * net.time_step + net.time_step)))
    ∧ (∀ (j : Nat) (mat : Mat), net.X[j]? = some mat →
        mat.length = net.time_step ∧ ∀ row ∈ mat, row.length = m.note_range)
    ∧ (∀ (j : Nat) (mat : Mat), net.y[j]? = some mat →
        mat.length = net.time_step ∧ ∀ row ∈ mat, row.length = m.note_range) := by
  obtain ⟨h1, hN0, rfl⟩ := init_ok_elim m biw net hok
  have hb : biw ≠ 0 := fun h => h1 (Or.inr h)
  have hfit : ((netN m biw).toNat + 1) * (biw * m.res) ≤ m.beat_roll.length :=
    slices_fit m biw hb hT hN0
  simp only [builtNetwork_X, builtNetwork_y, builtNetwork_N, builtNetwork_time_step]
  refine ⟨trivial, buildXY_fst_length m biw, buildXY_snd_length m biw, ?_, ?_, ?_⟩
  · intro j hj
    exact buildXY_fst_get m biw j hj
  · intro j mat hmat
    have hjlen : j < (netN m biw).toNat := by
      by_contra hc
      have hlen2 : (buildXY m biw).1.length ≤ j := by
        rw [buildXY_fst_length]
        omega
      rw [List.getElem?_eq_none hlen2] at hmat
      exact Option.noConfusion hmat
    rw [buildXY_fst_get m biw j hjlen] at hmat
    injection hmat with hmat'
    rw [← hmat']
    have hb2 : j * (biw * m.res) + (biw * m.res) ≤ m.beat_roll.length := by
      calc j * (biw * m.res) + (biw * m.res) = (j + 1) * (biw * m.res) := by ring
        _ ≤ ((netN m biw).toNat + 1) * (biw * m.res) :=
            Nat.mul_le_mul_right _ (by omega)
        _ ≤ _ := hfit
    exact pySlice_shape m.beat_roll m.note_range (j * (biw * m.res))
      (biw * m.res) hrows hb2
  · intro j mat hmat
    have hjlen : j < (netN m biw).toNat := by
      by_contra hc
      have hlen2 : (buildXY m biw).2.length ≤ j := by
        rw [buildXY_snd_length]
        omega
      rw [List.getElem?_eq_none hlen2] at hmat
      exact Option.noConfusion hmat
    rcases Nat.lt_or_ge (j + 1) ((netN m biw).toNat) with hlt | hge
    · rw [buildXY_snd_get m biw j hlt] at hmat
      injection hmat with hmat'
      rw [← hmat']
      have heq : (j + 1) * (biw * m.res) + (biw * m.res) * 2 =
          ((j + 1) * (biw * m.res) + (biw * m.res)) + (biw * m.res) := by ring
      rw [heq]
      have hb2 : ((j + 1) * (biw * m.res) + (biw * m.res)) + (biw * m.res) ≤
          m.beat_roll.length := by
        calc ((j + 1) * (biw * m.res) + (biw * m.res)) + (biw * m.res)
            = (j + 3) * (biw * m.res) := by ring
          _ ≤ ((netN m biw).toNat + 1) * (biw * m.res) :=
              Nat.mul_le_mul_right _ (by omega)
          _ ≤ _ := hfit
      exact pySlice_shape m.beat_roll m.note_range
        ((j + 1) * (biw * m.res) + (biw * m.res)) (biw * m.res) hrows hb2
    · rw [buildXY_snd_last m biw j hge hjlen] at hmat
      injection hmat with hmat'
      rw [← hmat']
      exact zeroMat_shape (biw * m.res) m.note_range

/-- Claim C7 witness: the shape contract evaluated on the concrete performance
`exMidi` with `beats_in_window = 1`. -/
theorem window_tensor_shapes_witness :
    exNetBuilt.time_step = 1 * exMidi.res
    ∧ exNetBuilt.X.length = exNetBuilt.N.toNat
    ∧ exNetBuilt.y.length = exNetBuilt.N.toNat
    ∧ (∀ j : Nat, j < exNetBuilt.N.toNat →
        exNetBuilt.X[j]? = some (pySlice exMidi.beat_roll (j * exNetBuilt.time_step)
          (j * exNetBuilt.time_step + exNetBuilt.time_step)))
    ∧ (∀ (j : Nat) (mat : Mat), exNetBuilt.X[j]? = some mat →
        mat.length = exNetBuilt.time_step ∧
          ∀ row ∈ mat, row.length = exMidi.note_range)
    ∧ (∀ (j : Nat) (mat : Mat), exNetBuilt.y[j]? = some mat →
        mat.length = exNetBuilt.time_step ∧
          ∀ row ∈ mat, row.length = exMidi.note_range) :=
  window_tensor_shapes exMidi 1 exNetBuilt init_exMidi (by decide)
    (by norm_num [MidiIn.total_beats, exMidi]) (by decide)

/-- Claim C8: saving a trained unit to a destination and loading from that same
destination restores the trained parameters exactly, hence any prediction
function of the restored parameters agrees with the one of the original
parameters on every fixed input (round-trip law, via the spec-modelled
opaque persistence collaborator). -/
theorem save_load_restores_predictions (net netB : Network)
    (store : ModelStore) (fn : String)
    (predictFn : TrainedParams → Mat → Mat) (x : Mat) (net' : Network)
    (h : Network.load_training netB fn (Network.save net fn store) = some net') :
    net'.training_model = net.training_model
    ∧ predictFn net'.training_model x = predictFn net.training_model x := by
  unfold Network.save Network.load_training at h
  rw [lookup_self] at h
  simp only [Option.map_some'] at h
  injection h with h'
  rw [← h']
  exact ⟨rfl, rfl⟩

/-- The trained unit used by the round-trip witness: `exNetBuilt` after a
training step that installed the parameter vector `[1, 2]`. -/
def exNetP : Network := { exNetBuilt with training_model := [1, 2] }

/-- Claim C8 witness: saving `exNetP` to the file `exFile` in an empty store and
loading it back into `exNetBuilt` restores `exNetP`'s parameters. -/
theorem save_load_restores_predictions_witness :
    exNetP.training_model = exNetP.training_model
    ∧ (fun (p : TrainedParams) ( _mx : Mat) => [[p.length]]) exNetP.training_model []
      = (fun (p : TrainedParams) ( _mx : Mat) => [[p.length]]) exNetP.training_model [] :=
  save_load_restores_predictions exNetP exNetBuilt [] exFile
    (fun p _mx => [[p.length]]) [] exNetP rfl

/-- Claim C9 counterexample evidence: `hidden` is 128 for every reachable
construction; varying the entire construction configuration surface
(`midi_in`, `beats_in_window`) never yields any other state width, so no
caller can set it to a value other than 128 — the `__init__` signature
exposes no `hidden` parameter at all. -/
theorem hidden_width_128_across_configs :
    (Network.init exMidi 1).map Network.hidden = .ok 128
    ∧ (Network.init exMidi 2).map Network.hidden = .ok 128
    ∧ (Network.init exShort 1).map Network.hidden = .ok 128 := by
  refine ⟨?_, ?_, ?_⟩
  · rw [init_exMidi]; rfl
  · rw [init_ok_intro exMidi 2 (by decide) (by rw [netN_exMidi2]; omega)]; rfl
  · rw [init_ok_intro exShort 1 (by decide) (by rw [netN_exShort])]; rfl

/-- Claim C9 (amended): the recurrent state width is fixed: every successful
construction stores `hidden = 128` and gives all four LSTM layers 128
units; `hidden` is not a caller-settable configuration parameter. -/
theorem hidden_width_fixed_128 (m : MidiIn) (biw : Nat) (net : Network)
    (hok : Network.init m biw = .ok net) :
    net.hidden = 128
    ∧ net.enc_lstm_1.units = 128 ∧ net.enc_lstm_2.units = 128
    ∧ net.dec_lstm_1.units = 128 ∧ net.dec_lstm_2.units = 128 := by
  obtain ⟨-, -, rfl⟩ := init_ok_elim m biw net hok
  exact ⟨rfl, rfl, rfl, rfl, rfl⟩

/-- Claim C9 witness: the fixed width on the concrete construction `exMidi`. -/
theorem hidden_width_fixed_128_witness :
    exNetBuilt.hidden = 128
    ∧ exNetBuilt.enc_lstm_1.units = 128 ∧ exNetBuilt.enc_lstm_2.units = 128
    ∧ exNetBuilt.dec_lstm_1.units = 128 ∧ exNetBuilt.dec_lstm_2.units = 128 :=
  hidden_width_fixed_128 exMidi 1 exNetBuilt init_exMidi

/-- Claim C10: a training step replaces only the trained parameters: every other
attribute of the object — the window tensors `X` and `y`, the counts `N`
and `time_step`, the supplied performance object and its piano roll, and
all layer configurations — is unchanged after `train` returns. -/
theorem train_frame_condition (net : Network) (fitted : TrainedParams)
    (epochs : Nat) :
    (Network.train net fitted epochs).1.X = net.X
    ∧ (Network.train net fitted epochs).1.y = net.y
    ∧ (Network.train net fitted epochs).1.N = net.N
    ∧ (Network.train net fitted epochs).1.time_step = net.time_step
    ∧ (Network.train net fitted epochs).1.beats_in_window = net.beats_in_window
    ∧ (Network.train net fitted epochs).1.midi_in = net.midi_in
    ∧ (Network.train net fitted epochs).1.encoder_in_data = net.encoder_in_data
    ∧ (Network.train net fitted epochs).1.hidden = net.hidden
    ∧ (Network.train net fitted epochs).1.enc_lstm_1 = net.enc_lstm_1
    ∧ (Network.train net fitted epochs).1.enc_lstm_2 = net.enc_lstm_2
    ∧ (Network.train net fitted epochs).1.dec_lstm_1 = net.dec_lstm_1
    ∧ (Network.train net fitted epochs).1.dec_lstm_2 = net.dec_lstm_2
    ∧ (Network.train net fitted epochs).1.dec_dense = net.dec_dense
    ∧ (Network.train net fitted epochs).1.dropout_rate = net.dropout_rate
    ∧ (Network.train net fitted epochs).1.training_model = fitted :=
  ⟨rfl, rfl, rfl, rfl, rfl, rfl, rfl, rfl, rfl, rfl, rfl, rfl, rfl, rfl, rfl⟩
